import Mathlib

/-!
Shallow embedding of the lemming BGP reconciler and policy translator
(`bgp/gobgp.go` and the policy-conversion file) in Lean 4, with theorems
checking the natural-language specification against the code.

Go maps are modelled as association lists, Go slices as lists, Go string
typedefs as `String`, Go pointers that may be nil as `Option`, and Go
`(value, error)` pairs as explicit pairs with an `Option String` error
component.
-/

namespace Lemming

/-- Errors are modelled by their message strings (Go `error`). -/
abbrev Err := String

/-! ## GoBGP config string typedefs (gobgpoc package)

GoBGP's config types `DefaultPolicyType`, `RouteDisposition`,
`MatchSetOptionsType` and `MatchSetOptionsRestrictedType` are Go string
typedefs, so their value space is all strings; the named constants below
are the defined values. -/

def DEFAULT_POLICY_TYPE_ACCEPT_ROUTE : String := "accept-route"

def DEFAULT_POLICY_TYPE_REJECT_ROUTE : String := "reject-route"

def ROUTE_DISPOSITION_NONE : String := "none"

def ROUTE_DISPOSITION_ACCEPT_ROUTE : String := "accept-route"

def ROUTE_DISPOSITION_REJECT_ROUTE : String := "reject-route"

def MATCH_SET_OPTIONS_TYPE_ANY : String := "any"

def MATCH_SET_OPTIONS_TYPE_ALL : String := "all"

def MATCH_SET_OPTIONS_TYPE_INVERT : String := "invert"

def MATCH_SET_OPTIONS_RESTRICTED_TYPE_ANY : String := "any"

def MATCH_SET_OPTIONS_RESTRICTED_TYPE_INVERT : String := "invert"

/-! ## OpenConfig (oc package) enumerations used by the translator -/

/-- oc.E_RoutingPolicy_DefaultPolicyType. -/
inductive E_RoutingPolicy_DefaultPolicyType where
  | UNSET
  | ACCEPT_ROUTE
  | REJECT_ROUTE
deriving DecidableEq, Repr

/-- oc.E_RoutingPolicy_PolicyResultType. -/
inductive E_RoutingPolicy_PolicyResultType where
  | UNSET
  | ACCEPT_ROUTE
  | REJECT_ROUTE
deriving DecidableEq, Repr

/-- oc.E_RoutingPolicy_MatchSetOptionsType. -/
inductive E_RoutingPolicy_MatchSetOptionsType where
  | UNSET
  | ANY
  | ALL
  | INVERT
deriving DecidableEq, Repr

/-- oc.E_RoutingPolicy_MatchSetOptionsRestrictedType. -/
inductive E_RoutingPolicy_MatchSetOptionsRestrictedType where
  | UNSET
  | ANY
  | INVERT
deriving DecidableEq, Repr

/-- oc.E_BgpTypes_BGP_WELL_KNOWN_STD_COMMUNITY. -/
inductive E_BgpTypes_BGP_WELL_KNOWN_STD_COMMUNITY where
  | UNSET
  | NO_ADVERTISE
  | NO_EXPORT
  | NO_EXPORT_SUBCONFED
  | NOPEER
deriving DecidableEq, Repr

/-- The community-member union type
(`oc.UnionString | oc.UnionUint32 | oc.E_BgpTypes_BGP_WELL_KNOWN_STD_COMMUNITY`).
The uint32 payload is a `Nat` kept below 2^32. -/
inductive CommunityUnion where
  | UnionString (s : String)
  | UnionUint32 (n : Nat)
  | WellKnown (c : E_BgpTypes_BGP_WELL_KNOWN_STD_COMMUNITY)
deriving DecidableEq, Repr

/-- Modelled from the spec: `uint32ToCommunityString` is repository code not
included in the provided sources. The spec states numeric communities render
as `high16:low16` formed from the upper and lower 16 bits of the uint32
(matching `convertCommunityOC` in the provided source, which renders
`y>>16` and `y&0xffff`). The input is reduced mod 2^32 as a Go uint32. -/
def uint32ToCommunityString (n : Nat) : String :=
  toString ((n % 4294967296) / 65536) ++ ":" ++ toString ((n % 4294967296) % 65536)

/-- `convertCommunity` from the source: converts a community union value to
its GoBGP string representation. NOTE (faithful to the source): in the
`UnionUint32` case the source calls `uint32ToCommunityString(uint32(c))` as a
bare statement without returning it, so control falls through to the final
`return ""`; the `let` below mirrors the discarded call. -/
def convertCommunity : CommunityUnion → String
  | .UnionString s => s
  | .UnionUint32 c =>
      let _ := uint32ToCommunityString c
      ""
  | .WellKnown c =>
      match c with
      | .NO_EXPORT => "65535:65281"
      | .NO_ADVERTISE => "65535:65282"
      | .NO_EXPORT_SUBCONFED => "65535:65283"
      | .NOPEER => "65535:65284"
      | .UNSET => ""

/-- `convertDefaultPolicy` from the source. -/
def convertDefaultPolicy : E_RoutingPolicy_DefaultPolicyType → String
  | .REJECT_ROUTE => DEFAULT_POLICY_TYPE_REJECT_ROUTE
  | .ACCEPT_ROUTE => DEFAULT_POLICY_TYPE_ACCEPT_ROUTE
  | _ => DEFAULT_POLICY_TYPE_REJECT_ROUTE

/-- `convertMatchSetOptionsType` from the source. -/
def convertMatchSetOptionsType : E_RoutingPolicy_MatchSetOptionsType → String
  | .INVERT => MATCH_SET_OPTIONS_TYPE_INVERT
  | .ANY => MATCH_SET_OPTIONS_TYPE_ANY
  | .ALL => MATCH_SET_OPTIONS_TYPE_ALL
  | _ => MATCH_SET_OPTIONS_TYPE_ANY

/-- `convertMatchSetOptionsRestrictedType` from the source. -/
def convertMatchSetOptionsRestrictedType :
    E_RoutingPolicy_MatchSetOptionsRestrictedType → String
  | .INVERT => MATCH_SET_OPTIONS_RESTRICTED_TYPE_INVERT
  | .ANY => MATCH_SET_OPTIONS_RESTRICTED_TYPE_ANY
  | _ => MATCH_SET_OPTIONS_RESTRICTED_TYPE_ANY

/-- `convertRouteDisposition` from the source. -/
def convertRouteDisposition : E_RoutingPolicy_PolicyResultType → String
  | .REJECT_ROUTE => ROUTE_DISPOSITION_REJECT_ROUTE
  | .ACCEPT_ROUTE => ROUTE_DISPOSITION_ACCEPT_ROUTE
  | _ => ROUTE_DISPOSITION_NONE

/-- `defaultPolicyToRouteDisp` from the source. GoBGP's `DefaultPolicyType`
is a string typedef, so the input ranges over all strings and the default
switch arm handles every value other than the two defined constants. -/
def defaultPolicyToRouteDisp (gobgpdefaultpolicy : String) : String :=
  if gobgpdefaultpolicy = DEFAULT_POLICY_TYPE_REJECT_ROUTE then
    ROUTE_DISPOSITION_REJECT_ROUTE
  else if gobgpdefaultpolicy = DEFAULT_POLICY_TYPE_ACCEPT_ROUTE then
    ROUTE_DISPOSITION_ACCEPT_ROUTE
  else
    ROUTE_DISPOSITION_REJECT_ROUTE

/-! ## MED translation -/

/-- oc.E_BgpActions_SetMed (symbolic MED values). -/
inductive E_BgpActions_SetMed where
  | UNSET
  | IGP
deriving DecidableEq, Repr

/-- The SetMed union
(`oc.UnionString | oc.UnionUint32 | oc.E_BgpActions_SetMed`); a Go interface
value that may be nil, hence wrapped in `Option` at use sites. -/
inductive MedUnion where
  | UnionString (s : String)
  | UnionUint32 (n : Nat)
  | SetMedEnum (c : E_BgpActions_SetMed)
deriving DecidableEq, Repr

/-- `convertMED` from the source: returns the translated string and an
optional error (Go `(string, error)`). A nil union yields `("", nil)`;
symbolic values are unsupported and yield an error with the field left
empty. -/
def convertMED : Option MedUnion → String × Option Err
  | none => ("", none)
  | some (.UnionString s) => (s, none)
  | some (.UnionUint32 n) => (toString n, none)
  | some (.SetMedEnum _) => ("", some "unsupported value for MED")

/-! ## OC policy model (intended side)

The oc structures are generated ygot structs whose getters return zero
values through nil pointers; they are modelled with the pointer levels
flattened and zero values as defaults. -/

/-- oc SetCommunity method enumeration. -/
inductive SetCommunity_Method where
  | UNSET
  | INLINE
  | REFERENCE
deriving DecidableEq, Repr

/-- oc SetCommunity options enumeration
(E_BgpPolicy_BgpSetCommunityOptionType). -/
inductive SetCommunityOptions where
  | UNSET
  | ADD
  | REMOVE
  | REPLACE
deriving DecidableEq, Repr

/-- The Go `String()` rendering of the options enumeration (ygot generated
name table; the unset value renders as "UNSET"). -/
def SetCommunityOptions.goString : SetCommunityOptions → String
  | .UNSET => "UNSET"
  | .ADD => "ADD"
  | .REMOVE => "REMOVE"
  | .REPLACE => "REPLACE"

/-- oc ...Statement_Actions_BgpActions_SetCommunity: the inline list, the
reference, the method and the options. -/
structure OcSetCommunity where
  Method : SetCommunity_Method := .UNSET
  InlineCommunities : List CommunityUnion := []
  ReferenceCommunitySetRef : String := ""
  Options : SetCommunityOptions := .UNSET
deriving DecidableEq, Repr

/-- oc statement conditions (flattened getter view). `NeighborSetRef`
is the neighbor set the intended statement specifies; the source translator
never reads it. -/
structure OcConditions where
  MatchPrefixSetRef : String := ""
  MatchPrefixSetOptions : E_RoutingPolicy_MatchSetOptionsRestrictedType := .UNSET
  NeighborSetRef : String := ""
  CommunitySetRef : String := ""
  AsPathSetRef : String := ""
  AsPathSetMatchSetOptions : E_RoutingPolicy_MatchSetOptionsType := .UNSET
deriving DecidableEq, Repr

/-- oc statement actions (flattened getter view). -/
structure OcActions where
  PolicyResult : E_RoutingPolicy_PolicyResultType := .UNSET
  SetCommunity : OcSetCommunity := {}
  SetLocalPref : Nat := 0
  SetMed : Option MedUnion := none
  SetAsPathPrependRepeatN : Nat := 0
  SetAsPathPrependAsn : Nat := 0
deriving DecidableEq, Repr

/-- oc.RoutingPolicy_PolicyDefinition_Statement. -/
structure OcStatement where
  Name : String := ""
  Conditions : OcConditions := {}
  Actions : OcActions := {}
deriving DecidableEq, Repr

/-- oc.RoutingPolicy_PolicyDefinition; `Statement.Values()` is the ordered
statement list. -/
structure OcPolicyDefinition where
  Name : String := ""
  Statements : List OcStatement := []
deriving DecidableEq, Repr

/-- oc.RoutingPolicy_DefinedSets_BgpDefinedSets_CommunitySet (only the
fields the translator reads). -/
structure OcCommunitySet where
  CommunityMember : List CommunityUnion := []
  MatchSetOptions : E_RoutingPolicy_MatchSetOptionsType := .UNSET
deriving DecidableEq, Repr

/-! ## GoBGP policy model (engine side, gobgpoc package) -/

/-- gobgpoc.CommunitySet. -/
structure CommunitySet where
  CommunitySetName : String := ""
  CommunityList : List String := []
deriving DecidableEq, Repr

/-- gobgpoc.MatchPrefixSet. -/
structure MatchPrefixSet where
  PrefixSet : String := ""
  MatchSetOptions : String := ""
deriving DecidableEq, Repr

/-- gobgpoc.MatchNeighborSet. -/
structure MatchNeighborSet where
  NeighborSet : String := ""
deriving DecidableEq, Repr

/-- gobgpoc.MatchCommunitySet. -/
structure MatchCommunitySet where
  CommunitySet : String := ""
  MatchSetOptions : String := ""
deriving DecidableEq, Repr

/-- gobgpoc.MatchAsPathSet. -/
structure MatchAsPathSet where
  AsPathSet : String := ""
  MatchSetOptions : String := ""
deriving DecidableEq, Repr

/-- gobgpoc.BgpConditions. -/
structure BgpConditions where
  MatchCommunitySet : MatchCommunitySet := {}
  MatchAsPathSet : MatchAsPathSet := {}
deriving DecidableEq, Repr

/-- gobgpoc.Conditions. -/
structure Conditions where
  MatchPrefixSet : MatchPrefixSet := {}
  MatchNeighborSet : MatchNeighborSet := {}
  BgpConditions : BgpConditions := {}
deriving DecidableEq, Repr

/-- gobgpoc.SetAsPathPrepend. -/
structure SetAsPathPrepend where
  RepeatN : Nat := 0
  As : String := ""
deriving DecidableEq, Repr

/-- gobgpoc.SetCommunity (with its SetCommunityMethod.CommunitiesList
flattened in). -/
structure SetCommunity where
  CommunitiesList : List String := []
  Options : String := ""
deriving DecidableEq, Repr

/-- gobgpoc.BgpActions. -/
structure BgpActions where
  SetCommunity : SetCommunity := {}
  SetLocalPref : Nat := 0
  SetMed : String := ""
  SetAsPathPrepend : SetAsPathPrepend := {}
deriving DecidableEq, Repr

/-- gobgpoc.Actions. -/
structure Actions where
  RouteDisposition : String := ""
  BgpActions : BgpActions := {}
deriving DecidableEq, Repr

/-- gobgpoc.Statement. -/
structure Statement where
  Name : String := ""
  Conditions : Conditions := {}
  Actions : Actions := {}
deriving DecidableEq, Repr

/-- gobgpoc.PolicyDefinition. -/
structure PolicyDefinition where
  Name : String := ""
  Statements : List Statement := []
deriving DecidableEq, Repr

/-! ## Policy conversion functions -/

/-- `convertPolicyName` from the source: qualifies an OC policy name with
the owning neighbour's address so all policies can share one global list. -/
def convertPolicyName (neighAddr ocPolicyName : String) : String :=
  neighAddr ++ "|" ++ ocPolicyName

/-- `convertSetCommunities` from the source. Returns the Go
`([]string, error)` pair; a nil slice is the empty list. An unresolved
reference is an error (the caller logs it and emits the statement with no
community action). -/
def convertSetCommunities (setCommunity : OcSetCommunity)
    (convertedCommSets : List CommunitySet)
    (commSetIndexMap : List (String × Nat)) : List String × Option Err :=
  match setCommunity.Method with
  | .INLINE =>
      (setCommunity.InlineCommunities.map convertCommunity, none)
  | .REFERENCE =>
      let commRef := setCommunity.ReferenceCommunitySetRef
      if commRef ≠ "" then
        match commSetIndexMap.lookup commRef with
        | none => ([], some ("Referenced community set not present in index map: " ++ commRef))
        | some index => (((convertedCommSets.get? index).getD {}).CommunityList, none)
      else
        ([], none)
  | .UNSET => ([], none)

/-- The loop body of `convertPolicyDefinition` in the source: converts one
OC statement. `occommset` is the OC community-set map (association list); a
missing key behaves as Go's nil map entry, whose getters return zero
values. Go's `convertedCommSets[index]` slice indexing is modelled with a
zero-value default (the index is always in range when built by
`convertCommunitySet`). -/
def convertStatement (convertedPolicyName neighAddr : String)
    (occommset : List (String × OcCommunitySet))
    (convertedCommSets : List CommunitySet)
    (commSetIndexMap : List (String × Nat)) (statement : OcStatement) : Statement :=
  let setCommunitiesPair :=
    convertSetCommunities statement.Actions.SetCommunity convertedCommSets commSetIndexMap
  let setmedPair := convertMED statement.Actions.SetMed
  { Name := convertedPolicyName ++ ":" ++ statement.Name
    Conditions :=
    { MatchPrefixSet :=
      { PrefixSet := statement.Conditions.MatchPrefixSetRef
        MatchSetOptions :=
          convertMatchSetOptionsRestrictedType statement.Conditions.MatchPrefixSetOptions }
      MatchNeighborSet :=
      -- Name the neighbor set as the policy so that the policy only
      -- applies to referring neighbours (source comment).
      { NeighborSet := neighAddr }
      BgpConditions :=
      { MatchCommunitySet :=
        { CommunitySet := statement.Conditions.CommunitySetRef
          MatchSetOptions :=
            convertMatchSetOptionsType
              (((occommset.lookup statement.Conditions.CommunitySetRef).getD {}).MatchSetOptions) }
        MatchAsPathSet :=
        { AsPathSet := statement.Conditions.AsPathSetRef
          MatchSetOptions :=
            convertMatchSetOptionsType statement.Conditions.AsPathSetMatchSetOptions } } }
    Actions :=
    { RouteDisposition := convertRouteDisposition statement.Actions.PolicyResult
      BgpActions :=
      { SetCommunity :=
        { CommunitiesList := setCommunitiesPair.1
          Options := (statement.Actions.SetCommunity.Options.goString).toLower }
        SetLocalPref := statement.Actions.SetLocalPref
        SetMed := setmedPair.1
        SetAsPathPrepend :=
        { RepeatN := statement.Actions.SetAsPathPrependRepeatN
          As := toString statement.Actions.SetAsPathPrependAsn } } } }

/-- `convertPolicyDefinition` from the source: converts one OC policy
definition, instantiated for neighbour `neighAddr`, to a GoBGP policy
definition, qualifying the policy name and every statement name. -/
def convertPolicyDefinition (policy : OcPolicyDefinition) (neighAddr : String)
    (occommset : List (String × OcCommunitySet))
    (convertedCommSets : List CommunitySet)
    (commSetIndexMap : List (String × Nat)) : PolicyDefinition :=
  let convertedPolicyName := convertPolicyName neighAddr policy.Name
  let statements := policy.Statements.map
    (convertStatement convertedPolicyName neighAddr occommset convertedCommSets commSetIndexMap)
  { Name := convertedPolicyName
    Statements := statements }

/-! ## Prefix-set conversion -/

/-- oc.RoutingPolicy_DefinedSets_PrefixSet_Prefix (getter view). -/
structure OcPrefix where
  IpPrefix : String := ""
  MasklengthRange : String := ""
deriving DecidableEq, Repr

/-- gobgpoc.Prefix. -/
structure Prefix where
  IpPrefix : String := ""
  MasklengthRange : String := ""
deriving DecidableEq, Repr

/-- gobgpoc.PrefixSet. -/
structure PrefixSet where
  PrefixSetName : String := ""
  PrefixList : List Prefix := []
deriving DecidableEq, Repr

/-- Modelled from the spec: `lemmingutil.Mapkeys` (repository utility not in
the provided sources) returns the keys of a map; on the association-list
model these are the first components. -/
def Mapkeys (m : List (String × α)) : List String :=
  m.map Prod.fst

/-- Ordered insertion used by `slicesSort`. -/
def stringInsert (x : String) : List String → List String
  | [] => [x]
  | y :: ys => if x ≤ y then x :: y :: ys else y :: stringInsert x ys

/-- Go's `slices.Sort` on strings (ascending), modelled as insertion sort. -/
def slicesSort (l : List String) : List String :=
  l.foldr stringInsert []

/-- `convertPrefixSets` from the source: emission is sorted by set name; the
sentinel mask-length range "exact" maps to the empty string, every other
literal and the ipPrefix pass through unchanged. A missing map key (never
hit, since the names are the map's keys) behaves as the empty entry. -/
def convertPrefixSets (ocprefixsets : List (String × List OcPrefix)) : List PrefixSet :=
  let prefixSetNames := slicesSort (Mapkeys ocprefixsets)
  prefixSetNames.map (fun prefixSetName =>
    let prefixList := ((ocprefixsets.lookup prefixSetName).getD []).map (fun p =>
      let r := if p.MasklengthRange = "exact" then "" else p.MasklengthRange
      { IpPrefix := p.IpPrefix, MasklengthRange := r })
    { PrefixSetName := prefixSetName, PrefixList := prefixList })

/-! ## Config translator (intendedToGoBGP) and its netip model -/

/-- An IPv4 address as four octets (the `net/netip` address for the
dotted-quad router-id strings this code handles; the OpenConfig router-id
type is a dotted-quad string). -/
structure IPv4 where
  o1 : Nat
  o2 : Nat
  o3 : Nat
  o4 : Nat
deriving DecidableEq, Repr

/-- Decimal value folded from a character list (digit chars ASCII 48..57). -/
def charsVal (cs : List Char) : Nat :=
  cs.foldl (fun acc c => acc * 10 + (c.toNat - 48)) 0

/-- One octet of Go `netip.ParseAddr`'s strict IPv4 parse: accepted exactly
when the character list is the canonical decimal rendering of a value at
most 255 (netip rejects empty fields, non-digits and leading zeros, which
is precisely non-canonical input). -/
def parseIPv4Octet (cs : List Char) : Option Nat :=
  if (toString (charsVal cs)).data = cs ∧ charsVal cs ≤ 255 then
    some (charsVal cs)
  else none

/-- Splits a character list on a separator character (every occurrence),
like Go string splitting: `splitOnChar c cs` never returns `[]`. -/
def splitOnChar (c : Char) : List Char → List (List Char)
  | [] => [[]]
  | x :: xs =>
    if x = c then
      [] :: splitOnChar c xs
    else
      match splitOnChar c xs with
      | [] => [[x]]
      | p :: ps => (x :: p) :: ps

/-- Assembles an IPv4 address from four octet parse results; any failed
octet fails the address. -/
def mkIPv4 : Option Nat → Option Nat → Option Nat → Option Nat → Option IPv4
  | some a, some b, some c, some d => some ⟨a, b, c, d⟩
  | _, _, _, _ => none

/-- Models Go `net/netip.ParseAddr` for IPv4 dotted-quad input (the only
form an OpenConfig router-id may take): four strictly-parsed octets
separated by dots; everything else is a parse error. -/
def netipParseAddr (s : String) : Option IPv4 :=
  match splitOnChar '.' s.data with
  | [c1, c2, c3, c4] =>
    mkIPv4 (parseIPv4Octet c1) (parseIPv4Octet c2) (parseIPv4Octet c3) (parseIPv4Octet c4)
  | _ => none

/-- Go `netip.Addr.IsLoopback` for IPv4: the 127.0.0.0/8 block. -/
def ipv4IsLoopback (a : IPv4) : Bool :=
  a.o1 = 127

/-- Go `netip.Addr.String` for IPv4: canonical dotted quad. -/
def ipv4String (a : IPv4) : String :=
  toString a.o1 ++ "." ++ toString a.o2 ++ "." ++ toString a.o3 ++ "." ++ toString a.o4

/-- gobgp bgpconfig global Config section (fields the code writes). -/
structure GlobalConfig where
  As : Nat := 0
  RouterId : String := ""
  Port : Int := 0
deriving DecidableEq, Repr

/-- gobgp bgpconfig Global section. -/
structure GlobalSection where
  Config : GlobalConfig := {}
deriving DecidableEq, Repr

/-- gobgpconfig.NeighborConfig. -/
structure NeighborConfig where
  PeerAs : Nat := 0
  NeighborAddress : String := ""
deriving DecidableEq, Repr

/-- gobgpconfig.NeighborState. -/
structure NeighborState where
  PeerAs : Nat := 0
  NeighborAddress : String := ""
deriving DecidableEq, Repr

/-- gobgpconfig.TransportConfig. -/
structure TransportConfig where
  LocalAddress : String := ""
  RemotePort : Nat := 0
deriving DecidableEq, Repr

/-- gobgpconfig.Transport. -/
structure Transport where
  Config : TransportConfig := {}
deriving DecidableEq, Repr

/-- gobgpconfig.Neighbor (fields the code writes). -/
structure Neighbor where
  Config : NeighborConfig := {}
  State : NeighborState := {}
  Transport : Transport := {}
deriving DecidableEq, Repr

/-- gobgpconfig.ZebraConfig. -/
structure ZebraConfig where
  Enabled : Bool := false
  Url : String := ""
  RedistributeRouteTypeList : List String := []
  Version : Nat := 0
  NexthopTriggerEnable : Bool := false
  SoftwareName : String := ""
deriving DecidableEq, Repr

/-- gobgpconfig Zebra section. -/
structure ZebraSection where
  Config : ZebraConfig := {}
deriving DecidableEq, Repr

/-- gobgpconfig.BgpConfigSet (fields the code writes). -/
structure BgpConfigSet where
  Global : GlobalSection := {}
  Neighbors : List Neighbor := []
  Zebra : ZebraSection := {}
deriving DecidableEq, Repr

/-- `zebra.MaxZapiVer` from the GoBGP zebra package (external constant). -/
def MaxZapiVer : Nat := 6

/-- Intended BGP global config (oc getter view: `GetAs`/`GetRouterId`
return zero values when unset, while `As != nil` is visible to
`reconcile`). -/
structure IntendedGlobal where
  As : Option Nat := none
  RouterId : Option String := none
deriving DecidableEq, Repr

/-- Intended BGP neighbor (getter view). -/
structure IntendedNeighbor where
  PeerAs : Nat := 0
  NeighborPort : Nat := 0
deriving DecidableEq, Repr

/-- Intended BGP sub-tree (`bgpoc`): global section plus the neighbor map
keyed by neighbor address. -/
structure IntendedBgp where
  Global : IntendedGlobal := {}
  Neighbor : List (String × IntendedNeighbor) := []
deriving DecidableEq, Repr

/-- `intendedToGoBGP` from the source: translates OC intended config to the
GoBGP config set. The local transport address is the router-id when it
parses as a loopback IP address (rendered back by `String()`), else empty. -/
def intendedToGoBGP (bgpoc : IntendedBgp) (zapiURL : String) (listenPort : Nat) :
    BgpConfigSet :=
  let localAddress :=
    match netipParseAddr (bgpoc.Global.RouterId.getD "") with
    | some localAddr => if ipv4IsLoopback localAddr then ipv4String localAddr else ""
    | none => ""
  { Global :=
    { Config :=
      { As := bgpoc.Global.As.getD 0
        RouterId := bgpoc.Global.RouterId.getD ""
        Port := Int.ofNat listenPort } }
    Neighbors := bgpoc.Neighbor.map (fun kv =>
      { Config := { PeerAs := kv.2.PeerAs, NeighborAddress := kv.1 }
        -- Needed because GoBGP's configuration diffing logic may check
        -- the state value instead of the config value (source comment).
        State := { PeerAs := kv.2.PeerAs, NeighborAddress := kv.1 }
        Transport :=
        { Config := { LocalAddress := localAddress, RemotePort := kv.2.NeighborPort } } })
    Zebra :=
    { Config :=
      { Enabled := true
        Url := zapiURL
        RedistributeRouteTypeList := []
        Version := MaxZapiVer
        NexthopTriggerEnable := false
        SoftwareName := "frr8.2" } } }

/-! ## Applied-state store, session event adapter and reconciliation
state machine (gobgp.go) -/

/-- oc.E_Bgp_Neighbor_SessionState. -/
inductive SessionState where
  | UNSET
  | IDLE
  | CONNECT
  | ACTIVE
  | OPENSENT
  | OPENCONFIRM
  | ESTABLISHED
deriving DecidableEq, Repr

/-- The generated enum name table consulted through `ΛMap` by the session
event adapter: every YANG-defined session-state value with its name; the
unset zero value has no entry. -/
def sessionStateNameTable : List (SessionState × String) :=
  [(.IDLE, "IDLE"), (.CONNECT, "CONNECT"), (.ACTIVE, "ACTIVE"),
   (.OPENSENT, "OPENSENT"), (.OPENCONFIRM, "OPENCONFIRM"),
   (.ESTABLISHED, "ESTABLISHED")]

/-- The name-matching loop of the session event adapter: the first table
entry whose name equals the engine's session-state name, if any. -/
def lookupSessionStateName (name : String) : Option SessionState :=
  (sessionStateNameTable.find? (fun e => e.2 = name)).map Prod.fst

/-- Applied per-neighbor record (the field the embedded code touches). -/
structure AppliedNeighbor where
  SessionState : SessionState := .UNSET
deriving DecidableEq, Repr

/-- The applied-BGP sub-tree (`t.appliedBGP`): the neighbor map keyed by
address, plus a marker for the schema-default leaves filled by
`PopulateDefaults`. -/
structure AppliedBgp where
  DefaultsPopulated : Bool := false
  Neighbor : List (String × AppliedNeighbor) := []
deriving DecidableEq, Repr

/-- Modelled from the spec: ygot's generated `PopulateDefaults` (not in the
provided sources) fills schema defaults on the empty sub-tree; the code
always applies it to a freshly zeroed `oc.NetworkInstance_Protocol_Bgp`,
yielding this fixed defaults value. -/
def appliedBgpDefaults : AppliedBgp :=
  { DefaultsPopulated := true, Neighbor := [] }

/-- The applied routing-policy sub-tree (`t.appliedRoutingPolicy`); its
content is never structurally inspected by the embedded code. -/
structure AppliedRoutingPolicy where
  DefaultsPopulated : Bool := false
  Content : List (String × String) := []
deriving DecidableEq, Repr

/-- The parts of the applied-state tree (`t.appliedState`, an `oc.Root`)
other than the BGP and routing-policy sub-trees, as opaque path/value
content. -/
structure AppliedOther where
  Paths : List (String × String) := []
deriving DecidableEq, Repr

/-- The mutable fields of `bgpDeclTask` that the embedded code reads or
writes. -/
structure TaskState where
  bgpStarted : Bool := false
  currentConfig : Option BgpConfigSet := none
  appliedBGP : AppliedBgp := {}
  appliedRoutingPolicy : AppliedRoutingPolicy := {}
  appliedOther : AppliedOther := {}
deriving DecidableEq, Repr

/-- One replace call to the external store made by
`updateAppliedStateHelper` (its own failure is only logged). -/
inductive Publish where
  | bgpState (b : AppliedBgp)
  | routingPolicyState (rp : AppliedRoutingPolicy)
deriving DecidableEq, Repr

/-- `updateAppliedState` from the source: the only entry point that mutates
the applied state. The mutator `f` (a Go closure mutating the task's fields
and returning an error) is modelled as a state function paired with its
error. On mutator error the error is returned and nothing is published; on
success the applied-BGP and applied-routing-policy sub-trees are published
and nil is returned. -/
def updateAppliedState (t : TaskState) (f : TaskState → TaskState × Option Err) :
    TaskState × List Publish × Option Err :=
  let r := f t
  match r.2 with
  | some err => (r.1, [], some err)
  | none =>
    (r.1, [.bgpState r.1.appliedBGP, .routingPolicyState r.1.appliedRoutingPolicy], none)

/-- `GetOrCreateNeighbor` on the applied-BGP sub-tree: returns the state
with the addressed neighbor present (inserting a zero record if absent). -/
def getOrCreateNeighbor (bgp : AppliedBgp) (addr : String) : AppliedBgp :=
  if (bgp.Neighbor.lookup addr).isSome then bgp
  else { bgp with Neighbor := bgp.Neighbor ++ [(addr, {})] }

/-- Pointwise update of one neighbor's record in the neighbor map. -/
def updateNeighbor (l : List (String × AppliedNeighbor)) (addr : String)
    (g : AppliedNeighbor → AppliedNeighbor) : List (String × AppliedNeighbor) :=
  l.map (fun kv => if kv.1 = addr then (kv.1, g kv.2) else kv)

/-- Writing the session-state field of the addressed neighbor record. -/
def setNeighborSessionState (bgp : AppliedBgp) (addr : String) (ss : SessionState) :
    AppliedBgp :=
  { bgp with Neighbor := updateNeighbor bgp.Neighbor addr (fun n => { n with SessionState := ss }) }

/-- The peer-state-change mutator from `startGoBGPFuncDecl` (the body of the
`WatchEvent` callback's `updateAppliedState` closure): looks up or creates
the neighbor, maps the engine's session-state name through the local enum
name table ("UNKNOWN" maps to the unset value), and on an unrecognized name
only logs a warning. The closure always returns a nil error. -/
def handlePeerEvent (bgp : AppliedBgp) (neighborAddress sessionStateName : String) :
    AppliedBgp :=
  let bgp1 := getOrCreateNeighbor bgp neighborAddress
  if sessionStateName = "UNKNOWN" then
    setNeighborSessionState bgp1 neighborAddress .UNSET
  else
    match lookupSessionStateName sessionStateName with
    | some newSessionState => setNeighborSessionState bgp1 neighborAddress newSessionState
    | none => bgp1

/-- Modelled from the spec: `InitialConfig` and `UpdateConfig` (repository
entry points into the engine, not in the provided sources) have interface
"start(initial config) → snapshot|error" and "update(previous snapshot, new
config) → snapshot|error". Their Go form returns a `(*BgpConfigSet, error)`
pair; as forced by the snapshot-or-error sum, the snapshot pointer
accompanying an error is nil. -/
def goCallPair : Except Err BgpConfigSet → Option BgpConfigSet × Option Err
  | .ok cfg => (some cfg, none)
  | .error e => (none, some e)

/-- `reconcile` from the source, as a function of the engine's behavior:
`initialConfigFn` and `updateConfigFn` are the engine start/update entry
points (arguments mirror the Go calls), `stopBgpResult` the outcome of
`bgpServer.StopBgp`. Returns the updated task state and the pass error. -/
def reconcile (initialConfigFn : AppliedBgp → BgpConfigSet → Except Err BgpConfigSet)
    (updateConfigFn : AppliedBgp → Option BgpConfigSet → BgpConfigSet → Except Err BgpConfigSet)
    (stopBgpResult : Option Err) (zapiURL : String) (listenPort : Nat)
    (t : TaskState) (intended : IntendedBgp) : TaskState × Option Err :=
  let newConfig := intendedToGoBGP intended zapiURL listenPort
  let bgpShouldStart := intended.Global.As.isSome && intended.Global.RouterId.isSome
  if bgpShouldStart && !t.bgpStarted then
    -- t.currentConfig, err = InitialConfig(...): the snapshot return value
    -- is assigned before the error check.
    let pair := goCallPair (initialConfigFn t.appliedBGP newConfig)
    let t1 := { t with currentConfig := pair.1 }
    match pair.2 with
    | some _ => (t1, some "Failed to apply initial BGP configuration")
    | none => ({ t1 with bgpStarted := true }, none)
  else if !bgpShouldStart && t.bgpStarted then
    match stopBgpResult with
    | some _ => (t, some "Failed to stop BGP service")
    | none =>
      ({ t with bgpStarted := false
                currentConfig := some {}
                appliedBGP := appliedBgpDefaults }, none)
  else if t.bgpStarted then
    -- t.currentConfig, err = UpdateConfig(...): the snapshot return value
    -- is assigned before the error check.
    let pair := goCallPair (updateConfigFn t.appliedBGP t.currentConfig newConfig)
    let t1 := { t with currentConfig := pair.1 }
    match pair.2 with
    | some _ => (t1, some "Failed to update BGP service")
    | none => (t1, none)
  else
    -- Waiting for BGP to be startable.
    (t, none)

/-- Joins character-list parts with a separator character: the inverse of
`splitOnChar`. -/
def joinSep (c : Char) : List (List Char) → List Char
  | [] => []
  | [p] => p
  | p :: ps => p ++ c :: joinSep c ps

/-- Splits a character list at the first occurrence of `c`, if any. -/
def breakAtChar (c : Char) : List Char → Option (List Char × List Char)
  | [] => none
  | x :: xs =>
    if x = c then some ([], xs)
    else (breakAtChar c xs).map (fun p => (x :: p.1, p.2))

/-- Recovers `(neighbor, policyName)` from a qualified policy name by
splitting at the first separator bar. -/
def parseQualifiedPolicyName (s : String) : Option (String × String) :=
  (breakAtChar '|' s.data).map (fun p => (String.mk p.1, String.mk p.2))

/-! ## Theorems -/

/-- Go string append concatenates the character data. -/
theorem string_data_append (s t : String) : (s ++ t).data = s.data ++ t.data :=
  rfl

/-- The character data of a qualified policy name. -/
theorem convertPolicyName_data (n p : String) :
    (convertPolicyName n p).data = n.data ++ '|' :: p.data := by
  have h : (convertPolicyName n p).data = (n.data ++ ['|']) ++ p.data := rfl
  rw [h, List.append_assoc]
  rfl

/-- Splitting a first-separator-free head off a list with the separator. -/
theorem breakAtChar_append (c : Char) (a b : List Char) (h : c ∉ a) :
    breakAtChar c (a ++ c :: b) = some (a, b) := by
  induction a with
  | nil => simp [breakAtChar]
  | cons x xs ih =>
    have hxc : x ≠ c := fun hh => h (hh ▸ List.mem_cons_self x xs)
    simp [breakAtChar, hxc, ih (fun hm => h (List.mem_cons_of_mem _ hm))]

/-- Two decompositions around a separator absent from both heads agree. -/
theorem sep_split (sep : Char) (a1 : List Char) :
    ∀ (a2 b1 b2 : List Char), sep ∉ a1 → sep ∉ a2 →
      a1 ++ sep :: b1 = a2 ++ sep :: b2 → a1 = a2 ∧ b1 = b2 := by
  induction a1 with
  | nil =>
    intro a2 b1 b2 h1 h2 heq
    cases a2 with
    | nil => simpa using heq
    | cons y ys =>
      injection heq with h3 h4
      exact absurd (h3 ▸ List.mem_cons_self y ys) h2
  | cons x xs ih =>
    intro a2 b1 b2 h1 h2 heq
    cases a2 with
    | nil =>
      injection heq with h3 h4
      exact absurd (h3 ▸ List.mem_cons_self x xs) h1
    | cons y ys =>
      injection heq with h3 h4
      subst h3
      have hrec := ih ys b1 b2 (fun hm => h1 (List.mem_cons_of_mem _ hm))
        (fun hm => h2 (List.mem_cons_of_mem _ hm)) h4
      exact ⟨by rw [hrec.1], hrec.2⟩

/-- `splitOnChar` always yields at least one part. -/
theorem splitOnChar_ne_nil (c : Char) (cs : List Char) : splitOnChar c cs ≠ [] := by
  cases cs with
  | nil => simp [splitOnChar]
  | cons x xs =>
    simp only [splitOnChar]
    split
    · simp
    · split <;> simp

/-- Joining the parts of a split restores the original list. -/
theorem joinSep_splitOnChar (c : Char) (cs : List Char) :
    joinSep c (splitOnChar c cs) = cs := by
  induction cs with
  | nil => rfl
  | cons x xs ih =>
    by_cases hx : x = c
    · subst hx
      simp only [splitOnChar, if_pos rfl]
      cases hr : splitOnChar x xs with
      | nil => exact absurd hr (splitOnChar_ne_nil x xs)
      | cons p ps =>
        rw [hr] at ih
        simp [joinSep, ih]
    · simp only [splitOnChar, if_neg hx]
      cases hr : splitOnChar c xs with
      | nil => exact absurd hr (splitOnChar_ne_nil c xs)
      | cons p ps =>
        rw [hr] at ih
        cases ps with
        | nil => simpa [joinSep] using congrArg (x :: ·) ih
        | cons q qs =>
          simp only [joinSep] at ih ⊢
          rw [List.cons_append, ih]

/-- C1: for every mutator passed to `updateAppliedState`: if the mutator
returns an error, `updateAppliedState` returns that error and no publish to
the external store occurs; if the mutator succeeds, both the applied-BGP and
the applied-routing-policy sub-trees are published and success is
returned. -/
theorem updateAppliedState_funnel (t : TaskState) (f : TaskState → TaskState × Option Err) :
    (∀ e, (f t).2 = some e → updateAppliedState t f = ((f t).1, [], some e)) ∧
    ((f t).2 = none →
      updateAppliedState t f =
        ((f t).1,
         [Publish.bgpState (f t).1.appliedBGP,
          Publish.routingPolicyState (f t).1.appliedRoutingPolicy], none)) := by
  constructor
  · intro e he
    simp only [updateAppliedState, he]
  · intro hn
    simp only [updateAppliedState, hn]

/-- Witness for C1 at a concrete state and concrete failing/succeeding
mutators. -/
theorem updateAppliedState_funnel_witness :
    updateAppliedState {} (fun t => (t, some "boom")) = ({}, [], some "boom") ∧
    updateAppliedState {} (fun t => (t, none)) =
      (({} : TaskState),
       [Publish.bgpState ({} : TaskState).appliedBGP,
        Publish.routingPolicyState ({} : TaskState).appliedRoutingPolicy], none) :=
  ⟨(updateAppliedState_funnel {} (fun t => (t, some "boom"))).1 "boom" rfl,
   (updateAppliedState_funnel {} (fun t => (t, none))).2 rfl⟩

/-- C2: the four well-known community values translate to their fixed
literal strings, but a numeric (uint32) community member does NOT translate
to "high16:low16": the source computes `uint32ToCommunityString` and
discards the result (missing `return`), falling through to `return ""`.
At the failing input 65537 the code yields "" while high16:low16 is
"1:1". -/
theorem convertCommunity_values :
    convertCommunity (.WellKnown .NO_EXPORT) = "65535:65281" ∧
    convertCommunity (.WellKnown .NO_ADVERTISE) = "65535:65282" ∧
    convertCommunity (.WellKnown .NO_EXPORT_SUBCONFED) = "65535:65283" ∧
    convertCommunity (.WellKnown .NOPEER) = "65535:65284" ∧
    uint32ToCommunityString 65537 = "1:1" ∧
    convertCommunity (.UnionUint32 65537) = "" ∧
    convertCommunity (.UnionUint32 65537) ≠ uint32ToCommunityString 65537 := by
  refine ⟨rfl, rfl, rfl, rfl, rfl, rfl, ?_⟩
  decide

/-- C5: every default-policy value other than the accept and reject
constants translates to the reject default (never accept), both for the OC
default-policy enumeration (`convertDefaultPolicy`) and for the engine
default-policy value mapped to a route disposition
(`defaultPolicyToRouteDisp`, a string typedef in GoBGP). -/
theorem defaultPolicy_reject_by_default :
    (∀ p : E_RoutingPolicy_DefaultPolicyType,
      p ≠ .ACCEPT_ROUTE → p ≠ .REJECT_ROUTE →
        convertDefaultPolicy p = DEFAULT_POLICY_TYPE_REJECT_ROUTE ∧
        convertDefaultPolicy p ≠ DEFAULT_POLICY_TYPE_ACCEPT_ROUTE) ∧
    (∀ s : String,
      s ≠ DEFAULT_POLICY_TYPE_ACCEPT_ROUTE → s ≠ DEFAULT_POLICY_TYPE_REJECT_ROUTE →
        defaultPolicyToRouteDisp s = ROUTE_DISPOSITION_REJECT_ROUTE ∧
        defaultPolicyToRouteDisp s ≠ ROUTE_DISPOSITION_ACCEPT_ROUTE) := by
  constructor
  · intro p h1 h2
    cases p with
    | UNSET => exact ⟨rfl, by decide⟩
    | ACCEPT_ROUTE => exact absurd rfl h1
    | REJECT_ROUTE => exact absurd rfl h2
  · intro s h1 h2
    unfold defaultPolicyToRouteDisp
    rw [if_neg h2, if_neg h1]
    exact ⟨rfl, by decide⟩

/-- Witness for C5 at the unset enumeration value and at an arbitrary
out-of-domain engine string. -/
theorem defaultPolicy_reject_by_default_witness :
    (convertDefaultPolicy .UNSET = DEFAULT_POLICY_TYPE_REJECT_ROUTE ∧
     convertDefaultPolicy .UNSET ≠ DEFAULT_POLICY_TYPE_ACCEPT_ROUTE) ∧
    (defaultPolicyToRouteDisp "bogus" = ROUTE_DISPOSITION_REJECT_ROUTE ∧
     defaultPolicyToRouteDisp "bogus" ≠ ROUTE_DISPOSITION_ACCEPT_ROUTE) :=
  ⟨defaultPolicy_reject_by_default.1 .UNSET (by decide) (by decide),
   defaultPolicy_reject_by_default.2 "bogus" (by decide) (by decide)⟩

/-- C8: every statement of every translated policy definition carries the
owning neighbour's address as its neighbor-match condition, regardless of
the neighbor set the intended statement specifies. -/
theorem convertPolicyDefinition_neighbor_match (policy : OcPolicyDefinition)
    (neighAddr : String) (occommset : List (String × OcCommunitySet))
    (convertedCommSets : List CommunitySet) (commSetIndexMap : List (String × Nat))
    (st : Statement)
    (hst : st ∈ (convertPolicyDefinition policy neighAddr occommset
      convertedCommSets commSetIndexMap).Statements) :
    st.Conditions.MatchNeighborSet.NeighborSet = neighAddr := by
  simp only [convertPolicyDefinition] at hst
  rcases List.mem_map.mp hst with ⟨s0, _, rfl⟩
  rfl

/-- Witness for C8: a concrete statement that explicitly specifies a
different neighbor set still gets the owning neighbour's address. -/
theorem convertPolicyDefinition_neighbor_match_witness :
    (convertStatement (convertPolicyName "10.0.0.1" "p") "10.0.0.1" [] [] []
      { Name := "s", Conditions := { NeighborSetRef := "9.9.9.9" } }
      ).Conditions.MatchNeighborSet.NeighborSet = "10.0.0.1" :=
  convertPolicyDefinition_neighbor_match
    { Name := "p", Statements := [{ Name := "s", Conditions := { NeighborSetRef := "9.9.9.9" } }] }
    "10.0.0.1" [] [] [] _ (by simp [convertPolicyDefinition])

/-- Lookup after a pointwise neighbor update: the addressed record is
transformed, nothing else. -/
theorem lookup_updateNeighbor (l : List (String × AppliedNeighbor)) (addr : String)
    (g : AppliedNeighbor → AppliedNeighbor) :
    (updateNeighbor l addr g).lookup addr = (l.lookup addr).map g := by
  induction l with
  | nil => rfl
  | cons kv rest ih =>
    obtain ⟨k, v⟩ := kv
    simp only [updateNeighbor, List.map] at ih ⊢
    by_cases h : k = addr
    · subst h
      rw [if_pos rfl]
      simp [List.lookup]
    · rw [if_neg (by simpa using h)]
      have hne : (addr == k) = false := by
        simp [Ne.symm h]
      simp [List.lookup, hne, ih]

/-- Appending a fresh key to an association list where it is absent makes
lookup find the fresh value. -/
theorem lookup_append_fresh (l : List (String × AppliedNeighbor)) (addr : String)
    (x : AppliedNeighbor) (h : l.lookup addr = none) :
    (l ++ [(addr, x)]).lookup addr = some x := by
  induction l with
  | nil => simp [List.lookup]
  | cons kv rest ih =>
    obtain ⟨k, v⟩ := kv
    by_cases hk : addr = k
    · subst hk
      simp [List.lookup] at h
    · have hne : (addr == k) = false := by simp [hk]
      simp only [List.lookup, hne] at h
      simp [List.lookup, hne, ih h]

/-- After `getOrCreateNeighbor`, the addressed neighbor is present: the
prior record if there was one, a zero record otherwise. -/
theorem lookup_getOrCreateNeighbor (bgp : AppliedBgp) (addr : String) :
    (getOrCreateNeighbor bgp addr).Neighbor.lookup addr =
      some ((bgp.Neighbor.lookup addr).getD {}) := by
  unfold getOrCreateNeighbor
  by_cases h : (bgp.Neighbor.lookup addr).isSome
  · obtain ⟨x, hx⟩ := Option.isSome_iff_exists.mp h
    simp [h, hx]
  · have hnone : bgp.Neighbor.lookup addr = none := Option.not_isSome_iff_eq_none.mp h
    simp [h, hnone, lookup_append_fresh _ _ _ hnone]

/-- Lookup after writing one neighbor's session state. -/
theorem lookup_setNeighborSessionState (bgp : AppliedBgp) (addr : String) (ss : SessionState) :
    (setNeighborSessionState bgp addr ss).Neighbor.lookup addr =
      (bgp.Neighbor.lookup addr).map (fun n => { n with SessionState := ss }) := by
  simp only [setNeighborSessionState]
  exact lookup_updateNeighbor bgp.Neighbor addr _

/-- C4 counterexample: an unrecognized session-state name does NOT leave the
applied state unmutated — `GetOrCreateNeighbor` runs before the name check,
so an event for an absent neighbor creates its record (and the mutator still
returns success). At the empty applied-BGP tree, an event ("1.2.3.4",
"BOGUS") with "BOGUS" unrecognized changes the state. -/
theorem handlePeerEvent_unrecognized_creates :
    ("BOGUS" = "UNKNOWN" → False) ∧
    lookupSessionStateName "BOGUS" = none ∧
    handlePeerEvent {} "1.2.3.4" "BOGUS" ≠ ({} : AppliedBgp) ∧
    handlePeerEvent {} "1.2.3.4" "BOGUS" = { Neighbor := [("1.2.3.4", {})] } := by
  refine ⟨by decide, by decide, by decide, by decide⟩

/-- C4 (amended): a recognized session-state name sets the neighbor's
session-state field ("UNKNOWN" maps to the unset value); an unrecognized
name leaves the session-state fields untouched and, when the neighbor
already exists, mutates nothing at all — though an absent neighbor is still
created with a zero record before the name check. -/
theorem handlePeerEvent_spec (bgp : AppliedBgp) (addr name : String) :
    (name = "UNKNOWN" →
      (handlePeerEvent bgp addr name).Neighbor.lookup addr =
        some { SessionState := .UNSET }) ∧
    (∀ ss, name ≠ "UNKNOWN" → lookupSessionStateName name = some ss →
      (handlePeerEvent bgp addr name).Neighbor.lookup addr =
        some { SessionState := ss }) ∧
    (name ≠ "UNKNOWN" → lookupSessionStateName name = none →
      ((bgp.Neighbor.lookup addr).isSome = true → handlePeerEvent bgp addr name = bgp) ∧
      ((bgp.Neighbor.lookup addr).isSome = false →
        handlePeerEvent bgp addr name =
          { bgp with Neighbor := bgp.Neighbor ++ [(addr, { SessionState := .UNSET })] })) := by
  refine ⟨?_, ?_, ?_⟩
  · intro h
    have heq : handlePeerEvent bgp addr name =
        setNeighborSessionState (getOrCreateNeighbor bgp addr) addr .UNSET := by
      simp [handlePeerEvent, h]
    rw [heq, lookup_setNeighborSessionState, lookup_getOrCreateNeighbor]
    rfl
  · intro ss hne hlook
    have heq : handlePeerEvent bgp addr name =
        setNeighborSessionState (getOrCreateNeighbor bgp addr) addr ss := by
      simp [handlePeerEvent, hne, hlook]
    rw [heq, lookup_setNeighborSessionState, lookup_getOrCreateNeighbor]
    rfl
  · intro hne hlook
    constructor
    · intro hsome
      simp [handlePeerEvent, if_neg hne, hlook, getOrCreateNeighbor, hsome]
    · intro hnone
      simp [handlePeerEvent, if_neg hne, hlook, getOrCreateNeighbor, hnone]

/-- Witness for C4's amended theorem at concrete events: "UNKNOWN" maps to
unset, "ESTABLISHED" is set by name, and an unrecognized name on an existing
neighbor mutates nothing. -/
theorem handlePeerEvent_spec_witness :
    (handlePeerEvent {} "1.1.1.1" "UNKNOWN").Neighbor.lookup "1.1.1.1" =
      some { SessionState := .UNSET } ∧
    (handlePeerEvent {} "1.1.1.1" "ESTABLISHED").Neighbor.lookup "1.1.1.1" =
      some { SessionState := .ESTABLISHED } ∧
    handlePeerEvent { Neighbor := [("1.1.1.1", {})] } "1.1.1.1" "BOGUS" =
      { Neighbor := [("1.1.1.1", {})] } :=
  ⟨(handlePeerEvent_spec {} "1.1.1.1" "UNKNOWN").1 rfl,
   (handlePeerEvent_spec {} "1.1.1.1" "ESTABLISHED").2.1 .ESTABLISHED (by decide) (by decide),
   ((handlePeerEvent_spec { Neighbor := [("1.1.1.1", {})] } "1.1.1.1" "BOGUS").2.2
     (by decide) (by decide)).1 (by decide)⟩

/-- C10: the STARTED to NOT_STARTED stop transition (stop succeeding) resets
exactly the applied-BGP sub-tree to schema defaults and empties the engine
config snapshot, leaving the applied routing-policy sub-tree and every other
part of the applied-state tree unchanged. -/
theorem reconcile_stop_frame
    (initialConfigFn : AppliedBgp → BgpConfigSet → Except Err BgpConfigSet)
    (updateConfigFn : AppliedBgp → Option BgpConfigSet → BgpConfigSet → Except Err BgpConfigSet)
    (zapiURL : String) (listenPort : Nat) (t : TaskState) (intended : IntendedBgp)
    (hstarted : t.bgpStarted = true)
    (hnostart : (intended.Global.As.isSome && intended.Global.RouterId.isSome) = false) :
    reconcile initialConfigFn updateConfigFn none zapiURL listenPort t intended =
      ({ t with bgpStarted := false
                currentConfig := some {}
                appliedBGP := appliedBgpDefaults }, none) ∧
    (reconcile initialConfigFn updateConfigFn none zapiURL listenPort t intended).1.appliedRoutingPolicy
      = t.appliedRoutingPolicy ∧
    (reconcile initialConfigFn updateConfigFn none zapiURL listenPort t intended).1.appliedOther
      = t.appliedOther := by
  have h : reconcile initialConfigFn updateConfigFn none zapiURL listenPort t intended =
      ({ t with bgpStarted := false
                currentConfig := some {}
                appliedBGP := appliedBgpDefaults }, none) := by
    simp [reconcile, hstarted, hnostart]
  exact ⟨h, by rw [h], by rw [h]⟩

/-- Witness for C10 at a concrete started state with non-trivial
routing-policy and other-tree content. -/
theorem reconcile_stop_frame_witness :
    reconcile (fun _ _ => .error "unused") (fun _ _ _ => .error "unused") none "url" 179
      { bgpStarted := true
        currentConfig := some { Global := { Config := { As := 65001 } } }
        appliedBGP := { DefaultsPopulated := true, Neighbor := [("1.1.1.1", { SessionState := .ESTABLISHED })] }
        appliedRoutingPolicy := { Content := [("k", "v")] }
        appliedOther := { Paths := [("p", "q")] } }
      {} =
    ({ bgpStarted := false
       currentConfig := some {}
       appliedBGP := appliedBgpDefaults
       appliedRoutingPolicy := { Content := [("k", "v")] }
       appliedOther := { Paths := [("p", "q")] } }, none) :=
  (reconcile_stop_frame (fun _ _ => .error "unused") (fun _ _ _ => .error "unused") "url" 179
    { bgpStarted := true
      currentConfig := some { Global := { Config := { As := 65001 } } }
      appliedBGP := { DefaultsPopulated := true, Neighbor := [("1.1.1.1", { SessionState := .ESTABLISHED })] }
      appliedRoutingPolicy := { Content := [("k", "v")] }
      appliedOther := { Paths := [("p", "q")] } }
    {} rfl rfl).1

/-- C3 counterexample: a failed engine update does NOT leave the engine
config snapshot at its last-known-good value. In Go,
`t.currentConfig, err = UpdateConfig(...)` assigns the returned snapshot —
nil when the call fails — before the error check, so at a started state
whose snapshot is a non-empty last-known-good config, a failing update
overwrites the snapshot with nil. -/
theorem reconcile_update_failure_loses_snapshot :
    (reconcile (fun _ _ => .error "start fail") (fun _ _ _ => .error "update fail") none
        "url" 179
        { bgpStarted := true
          currentConfig := some { Global := { Config := { As := 65001, RouterId := "1.1.1.1", Port := 179 } } } }
        { Global := { As := some 65001, RouterId := some "1.1.1.1" } }).2
      = some "Failed to update BGP service" ∧
    (reconcile (fun _ _ => .error "start fail") (fun _ _ _ => .error "update fail") none
        "url" 179
        { bgpStarted := true
          currentConfig := some { Global := { Config := { As := 65001, RouterId := "1.1.1.1", Port := 179 } } } }
        { Global := { As := some 65001, RouterId := some "1.1.1.1" } }).1.currentConfig
      = none ∧
    some ({ Global := { Config := { As := 65001, RouterId := "1.1.1.1", Port := 179 } } } : BgpConfigSet)
      ≠ (none : Option BgpConfigSet) := by
  refine ⟨rfl, rfl, by decide⟩

/-- C3 (amended): a failing engine update in the STARTED state surfaces an
error and leaves the started flag and all applied sub-trees unchanged, but
overwrites the engine config snapshot with the nil snapshot returned
alongside the error, instead of keeping the last-known-good value; a
failing start likewise leaves the state-machine state and applied trees
unchanged while overwriting the snapshot. -/
theorem reconcile_engine_failure
    (initialConfigFn : AppliedBgp → BgpConfigSet → Except Err BgpConfigSet)
    (updateConfigFn : AppliedBgp → Option BgpConfigSet → BgpConfigSet → Except Err BgpConfigSet)
    (stopBgpResult : Option Err) (zapiURL : String) (listenPort : Nat)
    (t : TaskState) (intended : IntendedBgp) :
    (∀ e, t.bgpStarted = true →
      (intended.Global.As.isSome && intended.Global.RouterId.isSome) = true →
      updateConfigFn t.appliedBGP t.currentConfig (intendedToGoBGP intended zapiURL listenPort)
        = .error e →
      reconcile initialConfigFn updateConfigFn stopBgpResult zapiURL listenPort t intended =
        ({ t with currentConfig := none }, some "Failed to update BGP service")) ∧
    (∀ e, t.bgpStarted = false →
      (intended.Global.As.isSome && intended.Global.RouterId.isSome) = true →
      initialConfigFn t.appliedBGP (intendedToGoBGP intended zapiURL listenPort)
        = .error e →
      reconcile initialConfigFn updateConfigFn stopBgpResult zapiURL listenPort t intended =
        ({ t with currentConfig := none }, some "Failed to apply initial BGP configuration")) := by
  constructor
  · intro e hstarted hshould hupd
    simp [reconcile, hstarted, hshould, hupd, goCallPair]
  · intro e hstopped hshould hinit
    simp [reconcile, hstopped, hshould, hinit, goCallPair]

/-- Witness for C3's amended theorem: concrete failing update and failing
start. -/
theorem reconcile_engine_failure_witness :
    reconcile (fun _ _ => .error "eu") (fun _ _ _ => .error "ee") none "url" 179
      { bgpStarted := true, currentConfig := some {} }
      { Global := { As := some 65001, RouterId := some "1.1.1.1" } } =
      ({ bgpStarted := true, currentConfig := none }, some "Failed to update BGP service") ∧
    reconcile (fun _ _ => .error "eu") (fun _ _ _ => .error "ee") none "url" 179
      { bgpStarted := false, currentConfig := some {} }
      { Global := { As := some 65001, RouterId := some "1.1.1.1" } } =
      ({ bgpStarted := false, currentConfig := none }, some "Failed to apply initial BGP configuration") :=
  ⟨(reconcile_engine_failure (fun _ _ => .error "eu") (fun _ _ _ => .error "ee") none "url" 179
      { bgpStarted := true, currentConfig := some {} }
      { Global := { As := some 65001, RouterId := some "1.1.1.1" } }).1 "ee" rfl rfl rfl,
   (reconcile_engine_failure (fun _ _ => .error "eu") (fun _ _ _ => .error "ee") none "url" 179
      { bgpStarted := false, currentConfig := some {} }
      { Global := { As := some 65001, RouterId := some "1.1.1.1" } }).2 "eu" rfl rfl rfl⟩

/-- A strictly-parsed octet renders back to exactly its input characters. -/
theorem parseIPv4Octet_render (cs : List Char) (v : Nat)
    (h : parseIPv4Octet cs = some v) : (toString v).data = cs := by
  unfold parseIPv4Octet at h
  split at h
  · rename_i hcond
    injection h with hv
    rw [← hv]
    exact hcond.1
  · exact absurd h (by simp)

/-- A strictly-parsed IPv4 address renders back (`String()`) to exactly the
input string. -/
theorem netipParseAddr_roundtrip (s : String) (addr : IPv4)
    (h : netipParseAddr s = some addr) : ipv4String addr = s := by
  unfold netipParseAddr at h
  rcases hsplit : splitOnChar '.' s.data with _ | ⟨c1, rest1⟩
  · rw [hsplit] at h
    exact Option.noConfusion h
  rcases rest1 with _ | ⟨c2, rest2⟩
  · rw [hsplit] at h
    exact Option.noConfusion h
  rcases rest2 with _ | ⟨c3, rest3⟩
  · rw [hsplit] at h
    exact Option.noConfusion h
  rcases rest3 with _ | ⟨c4, rest4⟩
  · rw [hsplit] at h
    exact Option.noConfusion h
  rcases rest4 with _ | ⟨c5, rest5⟩
  · rw [hsplit] at h
    have h' : mkIPv4 (parseIPv4Octet c1) (parseIPv4Octet c2) (parseIPv4Octet c3)
        (parseIPv4Octet c4) = some addr := h
    rcases hp1 : parseIPv4Octet c1 with _ | v1 <;> rw [hp1] at h'
    · exact absurd h' (by simp [mkIPv4])
    rcases hp2 : parseIPv4Octet c2 with _ | v2 <;> rw [hp2] at h'
    · exact absurd h' (by simp [mkIPv4])
    rcases hp3 : parseIPv4Octet c3 with _ | v3 <;> rw [hp3] at h'
    · exact absurd h' (by simp [mkIPv4])
    rcases hp4 : parseIPv4Octet c4 with _ | v4 <;> rw [hp4] at h'
    · exact absurd h' (by simp [mkIPv4])
    simp only [mkIPv4] at h'
    injection h' with haddr
    have r1 := parseIPv4Octet_render c1 v1 hp1
    have r2 := parseIPv4Octet_render c2 v2 hp2
    have r3 := parseIPv4Octet_render c3 v3 hp3
    have r4 := parseIPv4Octet_render c4 v4 hp4
    have hjoin := joinSep_splitOnChar '.' s.data
    rw [hsplit] at hjoin
    apply String.ext
    rw [← haddr, ← hjoin]
    have hdot : (".").data = ['.'] := rfl
    simp [ipv4String, joinSep, string_data_append, hdot, r1, r2, r3, r4, List.append_assoc]
  · rw [hsplit] at h
    exact Option.noConfusion h

/-- C6: in every translated prefix set, each emitted prefix comes from a
source prefix of the same set with the ipPrefix passed through unchanged and
the mask-length range mapped from the "exact" sentinel to the empty string
and passed through otherwise; and the spec's concrete prefix-set scenario
translates as stated. -/
theorem convertPrefixSets_spec :
    (∀ (m : List (String × List OcPrefix)) (ps : PrefixSet) (q : Prefix),
      ps ∈ convertPrefixSets m → q ∈ ps.PrefixList →
      ∃ p ∈ (m.lookup ps.PrefixSetName).getD [],
        q.IpPrefix = p.IpPrefix ∧
        q.MasklengthRange =
          if p.MasklengthRange = "exact" then "" else p.MasklengthRange) ∧
    convertPrefixSets
        [("pfx", [{ IpPrefix := "10.33.0.0/16", MasklengthRange := "exact" },
                  { IpPrefix := "10.34.0.0/16", MasklengthRange := "16..23" }])] =
      [{ PrefixSetName := "pfx",
         PrefixList := [{ IpPrefix := "10.33.0.0/16", MasklengthRange := "" },
                        { IpPrefix := "10.34.0.0/16", MasklengthRange := "16..23" }] }] := by
  constructor
  · intro m ps q hps hq
    simp only [convertPrefixSets] at hps
    rcases List.mem_map.mp hps with ⟨name, hname, rfl⟩
    simp only at hq
    rcases List.mem_map.mp hq with ⟨p, hp, rfl⟩
    exact ⟨p, hp, rfl, rfl⟩
  · rfl

/-- Witness for C6's universally quantified part at the spec's concrete
prefix-set scenario. -/
theorem convertPrefixSets_spec_witness :
    ∃ p ∈ (([("pfx", [({ IpPrefix := "10.33.0.0/16", MasklengthRange := "exact" } : OcPrefix),
                      { IpPrefix := "10.34.0.0/16", MasklengthRange := "16..23" }])]).lookup "pfx").getD [],
      ("10.33.0.0/16" : String) = p.IpPrefix ∧
      ("" : String) = (if p.MasklengthRange = "exact" then "" else p.MasklengthRange) := by
  have h := convertPrefixSets_spec.1
    [("pfx", [{ IpPrefix := "10.33.0.0/16", MasklengthRange := "exact" },
              { IpPrefix := "10.34.0.0/16", MasklengthRange := "16..23" }])]
    { PrefixSetName := "pfx",
      PrefixList := [{ IpPrefix := "10.33.0.0/16", MasklengthRange := "" },
                     { IpPrefix := "10.34.0.0/16", MasklengthRange := "16..23" }] }
    { IpPrefix := "10.33.0.0/16", MasklengthRange := "" }
    (by rw [convertPrefixSets_spec.2]; exact List.mem_singleton.mpr rfl)
    (by simp)
  exact h

/-- C7 counterexample: qualified statement names are NOT globally unique
over all (policy, statement) pairs: under one neighbor, policy "b:c" with
statement "d" and policy "b" with statement "c:d" produce the identical
qualified statement name "10.0.0.1|b:c:d". -/
theorem qualifiedStatementName_collision :
    ((convertPolicyDefinition { Name := "b:c", Statements := [{ Name := "d" }] }
        "10.0.0.1" [] [] []).Statements.map Statement.Name =
      (convertPolicyDefinition { Name := "b", Statements := [{ Name := "c:d" }] }
        "10.0.0.1" [] [] []).Statements.map Statement.Name) ∧
    (("b:c", "d") ≠ (("b", "c:d") : String × String)) :=
  ⟨rfl, by decide⟩

/-- C7 (amended): policy-name qualification is injective across neighbors
and invertible for bar-free neighbor addresses (every IP address is
bar-free), and qualified statement names are globally unique provided
neighbor addresses contain no bar and policy names contain no colon —
without the colon restriction distinct (policy, statement) pairs can
collide. -/
theorem convertPolicyName_qualification :
    (∀ n1 n2 p : String, n1 ≠ n2 → convertPolicyName n1 p ≠ convertPolicyName n2 p) ∧
    (∀ n p : String, '|' ∉ n.data →
      parseQualifiedPolicyName (convertPolicyName n p) = some (n, p)) ∧
    (∀ n1 n2 p1 p2 s1 s2 : String, '|' ∉ n1.data → '|' ∉ n2.data →
      ':' ∉ p1.data → ':' ∉ p2.data →
      convertPolicyName n1 p1 ++ ":" ++ s1 = convertPolicyName n2 p2 ++ ":" ++ s2 →
      n1 = n2 ∧ p1 = p2 ∧ s1 = s2) := by
  refine ⟨?_, ?_, ?_⟩
  · intro n1 n2 p hne heq
    apply hne
    have hd := congrArg String.data heq
    rw [convertPolicyName_data, convertPolicyName_data] at hd
    have hlen : n1.data.length = n2.data.length := by
      have h2 := congrArg List.length hd
      simp only [List.length_append, List.length_cons] at h2
      omega
    exact String.ext (List.append_inj hd hlen).1
  · intro n p h
    unfold parseQualifiedPolicyName
    rw [convertPolicyName_data, breakAtChar_append _ _ _ h]
    rfl
  · intro n1 n2 p1 p2 s1 s2 hn1 hn2 hp1 hp2 heq
    have hd := congrArg String.data heq
    rw [string_data_append, string_data_append, string_data_append, string_data_append,
      convertPolicyName_data, convertPolicyName_data] at hd
    have hcolon : (":").data = [':'] := rfl
    rw [hcolon] at hd
    simp only [List.append_assoc, List.cons_append, List.nil_append] at hd
    have h1 := sep_split '|' n1.data (n2.data)
      (p1.data ++ ':' :: s1.data) (p2.data ++ ':' :: s2.data) hn1 hn2 hd
    have h2 := sep_split ':' p1.data (p2.data) s1.data s2.data hp1 hp2 h1.2
    exact ⟨String.ext h1.1, String.ext h2.1, String.ext h2.2⟩

/-- Witness for C7's amended theorem at concrete IP-address neighbors and
colon-free policy names. -/
theorem convertPolicyName_qualification_witness :
    convertPolicyName "1.1.1.1" "p" ≠ convertPolicyName "2.2.2.2" "p" ∧
    parseQualifiedPolicyName (convertPolicyName "1.1.1.1" "p") = some ("1.1.1.1", "p") ∧
    (("1.1.1.1" : String) = "1.1.1.1" ∧ ("p" : String) = "p" ∧ ("s" : String) = "s") :=
  ⟨convertPolicyName_qualification.1 "1.1.1.1" "2.2.2.2" "p" (by decide),
   convertPolicyName_qualification.2.1 "1.1.1.1" "p" (by decide),
   convertPolicyName_qualification.2.2 "1.1.1.1" "1.1.1.1" "p" "p" "s" "s"
     (by decide) (by decide) (by decide) (by decide) rfl⟩

/-- C9: every translated neighbor carries as local transport address the
router-id exactly when the router-id parses as a loopback IP address, and
the empty string otherwise; the global section copies AS and router-id, and
in particular router-id "1.1.1.1" (not loopback) yields an empty local
address. -/
theorem intendedToGoBGP_localAddress :
    (∀ (bgpoc : IntendedBgp) (zapiURL : String) (listenPort : Nat) (n : Neighbor),
      n ∈ (intendedToGoBGP bgpoc zapiURL listenPort).Neighbors →
      ((∃ addr, netipParseAddr (bgpoc.Global.RouterId.getD "") = some addr ∧
          ipv4IsLoopback addr = true) →
        n.Transport.Config.LocalAddress = bgpoc.Global.RouterId.getD "") ∧
      ((∀ addr, netipParseAddr (bgpoc.Global.RouterId.getD "") = some addr →
          ipv4IsLoopback addr = false) →
        n.Transport.Config.LocalAddress = "")) ∧
    ((intendedToGoBGP
        { Global := { As := some 65001, RouterId := some "1.1.1.1" }
          Neighbor := [("10.0.0.2", { PeerAs := 65002, NeighborPort := 179 })] }
        "url" 179).Global.Config.As = 65001 ∧
     (intendedToGoBGP
        { Global := { As := some 65001, RouterId := some "1.1.1.1" }
          Neighbor := [("10.0.0.2", { PeerAs := 65002, NeighborPort := 179 })] }
        "url" 179).Global.Config.RouterId = "1.1.1.1" ∧
     (intendedToGoBGP
        { Global := { As := some 65001, RouterId := some "1.1.1.1" }
          Neighbor := [("10.0.0.2", { PeerAs := 65002, NeighborPort := 179 })] }
        "url" 179).Neighbors.map (fun nb => nb.Transport.Config.LocalAddress) = [""]) := by
  constructor
  · intro bgpoc zapiURL listenPort n hn
    simp only [intendedToGoBGP] at hn
    rcases List.mem_map.mp hn with ⟨kv, hkv, rfl⟩
    constructor
    · rintro ⟨addr, haddr, hloop⟩
      show (match netipParseAddr (bgpoc.Global.RouterId.getD "") with
            | some localAddr => if ipv4IsLoopback localAddr then ipv4String localAddr else ""
            | none => "") = bgpoc.Global.RouterId.getD ""
      rw [haddr]
      simp only [hloop, if_true]
      exact netipParseAddr_roundtrip _ _ haddr
    · intro hnoloop
      show (match netipParseAddr (bgpoc.Global.RouterId.getD "") with
            | some localAddr => if ipv4IsLoopback localAddr then ipv4String localAddr else ""
            | none => "") = ""
      rcases haddr : netipParseAddr (bgpoc.Global.RouterId.getD "") with _ | addr
      · rfl
      · simp [hnoloop addr haddr]
  · exact ⟨rfl, rfl, rfl⟩

/-- Witness for C9 at a loopback router-id ("127.0.0.1", which must become
the local address) and the non-loopback "1.1.1.1" (empty local address). -/
theorem intendedToGoBGP_localAddress_witness :
    (({ Config := { PeerAs := 65002, NeighborAddress := "10.0.0.2" }
        State := { PeerAs := 65002, NeighborAddress := "10.0.0.2" }
        Transport := { Config := { LocalAddress := "127.0.0.1", RemotePort := 179 } } } :
          Neighbor).Transport.Config.LocalAddress =
      (({ Global := { As := some 65001, RouterId := some "127.0.0.1" }
          Neighbor := [("10.0.0.2", { PeerAs := 65002, NeighborPort := 179 })] } :
            IntendedBgp).Global.RouterId.getD "")) ∧
    (({ Config := { PeerAs := 65002, NeighborAddress := "10.0.0.2" }
        State := { PeerAs := 65002, NeighborAddress := "10.0.0.2" }
        Transport := { Config := { LocalAddress := "", RemotePort := 179 } } } :
          Neighbor).Transport.Config.LocalAddress = "") :=
  by
  constructor
  · exact (intendedToGoBGP_localAddress.1
      { Global := { As := some 65001, RouterId := some "127.0.0.1" }
        Neighbor := [("10.0.0.2", { PeerAs := 65002, NeighborPort := 179 })] }
      "url" 179
      { Config := { PeerAs := 65002, NeighborAddress := "10.0.0.2" }
        State := { PeerAs := 65002, NeighborAddress := "10.0.0.2" }
        Transport := { Config := { LocalAddress := "127.0.0.1", RemotePort := 179 } } }
      (by decide)).1
      ⟨{ o1 := 127, o2 := 0, o3 := 0, o4 := 1 }, by decide, by decide⟩
  · exact (intendedToGoBGP_localAddress.1
      { Global := { As := some 65001, RouterId := some "1.1.1.1" }
        Neighbor := [("10.0.0.2", { PeerAs := 65002, NeighborPort := 179 })] }
      "url" 179
      { Config := { PeerAs := 65002, NeighborAddress := "10.0.0.2" }
        State := { PeerAs := 65002, NeighborAddress := "10.0.0.2" }
        Transport := { Config := { LocalAddress := "", RemotePort := 179 } } }
      (by decide)).2
      (by
        intro addr haddr
        have haddr' : netipParseAddr "1.1.1.1" = some addr := haddr
        have h0 : netipParseAddr "1.1.1.1" = some { o1 := 1, o2 := 1, o3 := 1, o4 := 1 } := by
          decide
        rw [h0] at haddr'
        injection haddr' with he
        rw [← he]
        decide)

end Lemming
